import Mathlib

/-!
Verification development for the BARRY multi-expert GUI agent
(src/mm_agents/BARRY of the repository under review).

The Python code is shallowly embedded as follows.

Data representation:
* Python strings, base64 screenshots and SOM descriptions are `String`.
* Python exceptions are values of `PyErr`; a fallible computation returns
  `Except PyErr`.  An operation that mutates `self` takes its state record
  and returns the updated record together with the result; mutations
  performed before an exception is raised persist, exactly as attribute
  mutations persist in Python when an exception propagates.
* Each expert object is a record of its mutable attributes.  The genai
  chat history is abstracted by its length (`chat_len`); no claim inspects
  the text of the history, only whether it is created afresh or carried
  over, and every `send_message` call appends one user and one model entry.
* The external LLM and the Omniparser backend are an oracle (`StepOracle`):
  one record per `predict` call holding the response text each call site
  would receive.  At most one call per site happens per step, so one record
  suffices.  Only the response whose text the code inspects is carried;
  intermediate conversational responses only grow `chat_len`.
* The LangGraph state machine is embedded as explicit step functions
  (`planningNode`, `actionNode`, `reflectionNode`, `graphInvoke`): router
  nodes only choose the next node, the other nodes update the shared
  `GraphState`.  The dynamically typed `osworld_action` channel, which the
  source stores both a string and a list of strings into, is the sum type
  `OsAction`; calling a string method on the list variant raises
  `AttributeError` as in Python.

Two deliberate modelling decisions, both visible in the repository:
* `barry_agent._process_new_screenshot` calls
  `self.perception_expert.get_screenshot()`.  The BARRY copy of
  `PerceptionExpert` does not define that accessor, but the sibling
  revision of the same class in the repository
  (src/Barry_Agent/perception_expert.py, line 116) defines it as
  `return self.screenshot`; we model that accessor, since without it every
  step of the agent dies on the same AttributeError and nothing else in
  the orchestration is exercisable.
* The graph action node calls
  `process_instruction(screenshot, SOM_screenshot, SOM_description, feedback)`
  with four positional arguments while the BARRY method is defined with
  three; Python raises TypeError at the call, before the method body runs.
  The model keeps this fault (see `actionNode`); the method body itself is
  embedded separately as `AState.process_instruction` (it is exercised by
  the module test at the bottom of action_expert.py, which passes the
  documented fourth argument and PIL images).

Each step function additionally returns a list of `Ev` events recording
which coordinator operations the step performed, so that theorems can speak
about what a call did and did not invoke; events change no computed state.
-/

/-- Python exception values observable in the embedded fragment. -/
inductive PyErr where
  | valueError (msg : String)
  | indexError
  | typeError (msg : String)
  | attributeError (msg : String)
  | connectionError (msg : String)
deriving Repr, DecidableEq

/-- Result of a Python computation that may raise. -/
abbrev PyResult (α : Type) := Except PyErr α

/-- Split a character list at the first occurrence of the pattern `sep`:
returns the part before and the part after the first occurrence, or none
when the pattern does not occur.  (Structural recursion over the text, so
that concrete runs reduce inside the kernel.) -/
def findMarker (sep : List Char) : List Char → Option (List Char × List Char)
  | [] => none
  | c :: rest =>
    if sep.isPrefixOf (c :: rest) then some ([], (c :: rest).drop sep.length)
    else
      match findMarker sep rest with
      | some (pre, post) => some (c :: pre, post)
      | none => none

/-- Split a character list on every occurrence of the character `c`
(Python str.split with a one character separator). -/
def splitChar (c : Char) : List Char → List (List Char)
  | [] => [[]]
  | a :: rest =>
    let r := splitChar c rest
    if a = c then [] :: r
    else
      match r with
      | [] => [[a]]
      | h :: t => (a :: h) :: t

/-- Python str.strip(): drop whitespace from both ends. -/
def pyStrip (s : String) : String :=
  ⟨((s.data.dropWhile Char.isWhitespace).reverse.dropWhile Char.isWhitespace).reverse⟩

/-- Python str.lower(): lowercase every character. -/
def pyLower (s : String) : String :=
  ⟨s.data.map Char.toLower⟩

/-- Python str.startswith. -/
def pyStartsWith (s pre : String) : Bool :=
  pre.data.isPrefixOf s.data

/-- Python `s.split(sep, 1)`: split on the first occurrence of `sep` only.
Gives a one element list when `sep` does not occur, and a two element list
otherwise. -/
def splitOnce (s sep : String) : List String :=
  match findMarker sep.data s.data with
  | none => [s]
  | some (pre, post) => [⟨pre⟩, ⟨post⟩]

/-- utils.parse_llm_response: split the oracle reply on the literal marker
RESPONSE:, raise ValueError when the marker is absent, otherwise return the
stripped payload after the first marker. -/
def parse_llm_response (response_text : String) : PyResult String :=
  match splitOnce response_text "RESPONSE:" with
  | [_, payload] => .ok (pyStrip payload)
  | _ => .error (.valueError ("LLM response missing RESPONSE: marker: " ++ response_text))

/-- Shared parsing idiom of the planning expert and the action expert:
split a payload on semicolons, strip each piece, and drop empty pieces. -/
def parseSemicolonList (raw : String) : List String :=
  (((splitChar ';' raw.data).map (fun p => pyStrip (String.mk p))).filter
    (fun t => t != ""))

/-- ActionExpert._parse_subtask_response: returns the empty list both for an
empty response and when the marker is missing (after printing a warning);
it never raises. -/
def parseSubtaskResponse (response_text marker : String) : List String :=
  if response_text = "" then []
  else
    match splitOnce response_text marker with
    | [_, payload] => parseSemicolonList (pyStrip payload)
    | _ => []

/-- Marker presence test used to state the parsing contract: true exactly
when the text contains the literal RESPONSE: marker. -/
def hasMarker (t : String) : Bool :=
  (splitOnce t "RESPONSE:").length == 2

/-- Oracle record for one predict step: the observation handed in by the
benchmark, the Omniparser backend outcome, and the response text each LLM
call site of that step would receive. -/
structure StepOracle where
  obs_screenshot : Option String
  omniparser : PyResult (String × String)
  evalExecResp : String
  evalErrorResp : String
  createInstructionResp : String
  decomposeMainResp : String
  isDoneResp : String
  rethinkResp : String
  decomposeSubtaskResp : String
  processResp : String
deriving Repr

/-- Mutable attributes of ReflectionExpert. -/
structure RState where
  chat_len : Nat
  instruction_list : List String
  instruction_index : Nat
  last_printed_index : Nat
deriving Repr, DecidableEq

/-- ReflectionExpert.__init__. -/
def initRState : RState :=
  { chat_len := 0, instruction_list := [], instruction_index := 0, last_printed_index := 0 }

/-- ReflectionExpert.set_subtask_and_instructions: append one message about
the subtask to the chat history, install the instruction list and reset the
instruction index to zero. -/
def RState.set_subtask_and_instructions (s : RState) (subtask : String)
    (instruction_list : List String) : RState :=
  { s with chat_len := s.chat_len + 1
           instruction_list := instruction_list
           instruction_index := 0 }

/-- ReflectionExpert.is_last_instruction:
len(instruction_list) - 1 == instruction_index, over Python integers. -/
def RState.is_last_instruction (s : RState) : Bool :=
  ((s.instruction_list.length : Int) - 1) == (s.instruction_index : Int)

/-- ReflectionExpert.get_next_instruction: increment the index, then return
the element at the new index (IndexError when it is out of bounds; the
increment persists either way, as in Python). -/
def RState.get_next_instruction (s : RState) : RState × PyResult String :=
  let s' := { s with instruction_index := s.instruction_index + 1 }
  (s',
   match s'.instruction_list[s'.instruction_index]? with
   | some instr => .ok instr
   | none => .error .indexError)

/-- ReflectionExpert.evaluate_execution: format the first prompt with the
current instruction (IndexError when the cursor is out of bounds), run the
three chat turns, parse the final reply and compare its lowercase form with
yes. -/
def RState.evaluate_execution (s : RState) (o : StepOracle) : RState × PyResult Bool :=
  match s.instruction_list[s.instruction_index]? with
  | none => (s, .error .indexError)
  | some _ =>
    ({ s with chat_len := s.chat_len + 6 },
     match parse_llm_response o.evalExecResp with
     | .error e => .error e
     | .ok final_response => .ok (pyLower final_response == "yes"))

/-- ReflectionExpert.evaluate_error: format the error prompt with the
current instruction, run one chat turn, and return the parsed reply (the
classification text).  The parameters mirror the source signature
(main_task, screenshot); both only enter the prompt. -/
def RState.evaluate_error (s : RState) (main_task screenshot : String)
    (o : StepOracle) : RState × PyResult String :=
  match s.instruction_list[s.instruction_index]? with
  | none => (s, .error .indexError)
  | some _ =>
    ({ s with chat_len := s.chat_len + 2 },
     match parse_llm_response o.evalErrorResp with
     | .error e => .error e
     | .ok final_response => .ok final_response)

/-- ReflectionExpert.create_new_instruction: one chat turn; the raw reply
text is returned unparsed. -/
def RState.create_new_instruction (s : RState) (o : StepOracle) : RState × String :=
  ({ s with chat_len := s.chat_len + 2 }, o.createInstructionResp)

/-- Mutable attributes of PlanningExpert. -/
structure PState where
  chat_len : Nat
  last_printed_index : Nat
  last_task_for_test : String
  main_task : String
  current_subtask : String
  first_iter : Bool
deriving Repr, DecidableEq

/-- PlanningExpert.__init__. -/
def initPState : PState :=
  { chat_len := 0, last_printed_index := 0, last_task_for_test := ""
    main_task := "", current_subtask := "", first_iter := true }

/-- PlanningExpert.decompose_main_task: store the main task, run one chat
turn, parse, split on semicolons, store and return the first subtask
(IndexError on an empty list). -/
def PState.decompose_main_task (s : PState) (main_task : String)
    (o : StepOracle) : PState × PyResult String :=
  let s1 := { s with main_task := main_task, chat_len := s.chat_len + 2 }
  match parse_llm_response o.decomposeMainResp with
  | .error e => (s1, .error e)
  | .ok raw =>
    match parseSemicolonList raw with
    | [] => (s1, .error .indexError)
    | first :: _ => ({ s1 with current_subtask := first }, .ok first)

/-- PlanningExpert.is_main_task_done: one chat turn, parse, then the source
evaluates llm_response_text[0].lower() == 'yes', that is it compares the
lowercased first character (a one character string) with the three character
string yes. -/
def PState.is_main_task_done (s : PState) (o : StepOracle) : PState × PyResult Bool :=
  ({ s with chat_len := s.chat_len + 2 },
   match parse_llm_response o.isDoneResp with
   | .error e => .error e
   | .ok txt =>
     match txt.data with
     | [] => .error .indexError
     | c :: _ => .ok (pyLower (String.singleton c) == "yes"))

/-- PlanningExpert.rethink_subtask_list: one chat turn, parse, split on
semicolons; store the last element in last_task_for_test and the first in
current_subtask and return it (IndexError on an empty list). -/
def PState.rethink_subtask_list (s : PState) (reflection_expert_feedback : String)
    (o : StepOracle) : PState × PyResult String :=
  let s1 := { s with chat_len := s.chat_len + 2 }
  match parse_llm_response o.rethinkResp with
  | .error e => (s1, .error e)
  | .ok raw =>
    match parseSemicolonList raw with
    | [] => (s1, .error .indexError)
    | first :: rest =>
      ({ s1 with last_task_for_test := (first :: rest).getLast (List.cons_ne_nil first rest)
                 current_subtask := first },
       .ok first)

/-- PlanningExpert.decompose_subtask: one chat turn, parse, split on
semicolons and return the instruction list (which may be empty). -/
def PState.decompose_subtask (s : PState) (o : StepOracle) : PState × PyResult (List String) :=
  let s1 := { s with chat_len := s.chat_len + 2 }
  match parse_llm_response o.decomposeSubtaskResp with
  | .error e => (s1, .error e)
  | .ok raw => (s1, .ok (parseSemicolonList raw))

/-- Mutable attributes of ActionExpert. -/
structure AState where
  chat_len : Nat
  last_printed_index : Nat
  current_instruction : String
deriving Repr, DecidableEq

/-- ActionExpert.__init__. -/
def initAState : AState :=
  { chat_len := 0, last_printed_index := 0, current_instruction := "" }

/-- ActionExpert.set_current_instruction. -/
def AState.set_current_instruction (s : AState) (new_instruction : String) : AState :=
  { s with current_instruction := new_instruction }

/-- ActionExpert.process_instruction, method body: five chat turns and the
final reply parsed by _parse_subtask_response with the RESPONSE: marker,
returning a list of commands (empty when the marker is missing).  This is
the behaviour the module test at the bottom of action_expert.py exercises;
in the orchestrated graph the call site itself raises TypeError before the
body runs (see actionNode). -/
def AState.process_instruction (s : AState) (o : StepOracle) : AState × List String :=
  ({ s with chat_len := s.chat_len + 10 },
   parseSubtaskResponse o.processResp "RESPONSE:")

/-- Mutable attributes of PerceptionExpert. -/
structure PerceptionState where
  omniparser_server : String
  screenshot : String
  som_screenshot : String
  som_description : String
deriving Repr, DecidableEq

/-- PerceptionExpert.__init__. -/
def initPerceptionState : PerceptionState :=
  { omniparser_server := "", screenshot := "", som_screenshot := "", som_description := "" }

/-- PerceptionExpert.store_screenshot (the bytes-to-base64 conversion is
identified with the stored string). -/
def PerceptionState.store_screenshot (s : PerceptionState) (scr : String) : PerceptionState :=
  { s with screenshot := scr }

/-- Dynamically typed osworld_action channel of the LangGraph state: the
source stores both the string done and the list returned by the action
expert into it. -/
inductive OsAction where
  | pystr (s : String)
  | pylist (xs : List String)
deriving Repr, DecidableEq

/-- Python truthiness of the channel value. -/
def OsAction.truthy : OsAction → Bool
  | .pystr s => s != ""
  | .pylist xs => xs != []

/-- Python equality test of the channel value with the string done. -/
def OsAction.eqDoneStr : OsAction → Bool
  | .pystr s => s == "done"
  | .pylist _ => false

/-- Python osworld_action.strip().splitlines() with empty lines dropped;
raises AttributeError on the list variant, since Python lists have no strip
method. -/
def OsAction.stripSplitlines : OsAction → PyResult (List String)
  | .pystr s =>
    .ok (((splitChar (Char.ofNat 10) (pyStrip s).data).map String.mk).filter
      (fun l => l != ""))
  | .pylist _ => .error (.attributeError "list object has no attribute strip")

/-- LangGraph shared state (the State TypedDict of barry_agent.py). -/
structure GraphState where
  reflection_action : String
  reflection_planning : String
  osworld_action : OsAction
  done : Bool
deriving Repr, DecidableEq

/-- Initial graph state installed by predict on the first iteration. -/
def initGraphState : GraphState :=
  { reflection_action := "", reflection_planning := "", osworld_action := .pystr "", done := false }

/-- Events recording which coordinator operations a step performed. -/
inductive Ev where
  | perception
  | graphInvoke
  | planningDecomposeMain
  | planningIsDone
  | planningRethink
  | planningDecomposeSubtask
  | reflectionEvaluate
  | reflectionClassify (minor : Bool)
  | reflectionCreatePatch
  | reflectionAdvance
  | actionCall
deriving Repr, DecidableEq

/-- Mutable attributes of BarryAgent (barry_agent.py __init__). -/
structure BarryAgent where
  observation_type : String
  action_space : String
  trajectory_length : Nat
  max_trajectory_length : Nat
  call_user_count : Nat
  call_user_tolerance : Nat
  main_task : String
  first_iteration : Bool
  planning : PState
  action : AState
  reflection : RState
  perception : PerceptionState
  screenshot : String
  SOM_screenshot : String
  SOM_description : String
  sleep : Bool
  graph_state : GraphState
deriving Repr, DecidableEq

/-- BarryAgent.__init__ with the default configuration (screenshot
observations, pyautogui action space, trajectory ceiling 25). -/
def initBarryAgent : BarryAgent :=
  { observation_type := "screenshot", action_space := "pyautogui"
    trajectory_length := 0, max_trajectory_length := 25
    call_user_count := 0, call_user_tolerance := 3
    main_task := "", first_iteration := true
    planning := initPState, action := initAState, reflection := initRState
    perception := initPerceptionState
    screenshot := "", SOM_screenshot := "", SOM_description := ""
    sleep := false, graph_state := initGraphState }

/-- Shared tail of the planning_expert graph node (barry_agent.py lines
148-155): decompose the current subtask into an instruction list, install
it into the reflection expert and set the first instruction as the action
expert current instruction (IndexError on an empty list, raised after the
installation). -/
def planningCommon (s : BarryAgent) (gs : GraphState) (subtask : String)
    (evs : List Ev) (o : StepOracle) : BarryAgent × List Ev × PyResult GraphState :=
  let pr := s.planning.decompose_subtask o
  let s1 := { s with planning := pr.1 }
  let evs1 := evs ++ [Ev.planningDecomposeSubtask]
  match pr.2 with
  | .error e => (s1, evs1, .error e)
  | .ok instruction_list =>
    let s2 := { s1 with reflection :=
                  s1.reflection.set_subtask_and_instructions subtask instruction_list }
    match instruction_list with
    | [] => (s2, evs1, .error .indexError)
    | first :: _ =>
      ({ s2 with action := s2.action.set_current_instruction first }, evs1, .ok gs)

/-- planning_expert graph node.  Case 1 (first iteration): decompose the
main task.  Case 2 (reflection said finish): ask is_main_task_done; when
done, only set the done flag; otherwise replan with empty feedback.  Case 3:
replan with the reflection feedback.  The node returns no graph state
update in the fall-through cases. -/
def planningNode (s : BarryAgent) (gs : GraphState) (o : StepOracle) :
    BarryAgent × List Ev × PyResult GraphState :=
  if s.first_iteration then
    let pr := s.planning.decompose_main_task s.main_task o
    let s1 := { s with planning := pr.1 }
    match pr.2 with
    | .error e => (s1, [Ev.planningDecomposeMain], .error e)
    | .ok subtask =>
      planningCommon { s1 with first_iteration := false } gs subtask
        [Ev.planningDecomposeMain] o
  else if gs.reflection_planning == "finish" then
    let pr := s.planning.is_main_task_done o
    let s1 := { s with planning := pr.1 }
    match pr.2 with
    | .error e => (s1, [Ev.planningIsDone], .error e)
    | .ok done =>
      if done then
        (s1, [Ev.planningIsDone], .ok { gs with done := true })
      else
        let rr := s1.planning.rethink_subtask_list "" o
        let s2 := { s1 with planning := rr.1 }
        match rr.2 with
        | .error e => (s2, [Ev.planningIsDone, Ev.planningRethink], .error e)
        | .ok subtask =>
          planningCommon s2 gs subtask [Ev.planningIsDone, Ev.planningRethink] o
  else
    let rr := s.planning.rethink_subtask_list gs.reflection_planning o
    let s1 := { s with planning := rr.1 }
    match rr.2 with
    | .error e => (s1, [Ev.planningRethink], .error e)
    | .ok subtask => planningCommon s1 gs subtask [Ev.planningRethink] o

/-- action_expert graph node.  Case 1 (done flag set): report done on the
osworld_action channel.  Case 2: the source calls
process_instruction(self.screenshot, self.SOM_screenshot,
self.SOM_description, feedback) with four positional arguments, while the
method of mm_agents/BARRY/action_expert.py is defined with three, so Python
raises TypeError at the call, before the method body runs. -/
def actionNode (s : BarryAgent) (gs : GraphState) :
    BarryAgent × List Ev × PyResult GraphState :=
  if gs.done then
    (s, [], .ok { gs with osworld_action := .pystr "done" })
  else
    (s, [Ev.actionCall],
     .error (.typeError "process_instruction takes 4 positional arguments but 5 were given"))

/-- reflection_expert graph node.  Evaluate the last execution; on success
either report finish (last instruction) or advance the cursor and hand the
next instruction to the action expert; on failure classify the error via
the oracle and either install a patch instruction (Minor) or forward the
diagnosis to planning (Major).  The source passes (screenshot, main_task)
into evaluate_error, whose parameters are (main_task, screenshot); the swap
is reproduced here (it only affects prompt text). -/
def reflectionNode (s : BarryAgent) (gs : GraphState) (o : StepOracle) :
    BarryAgent × List Ev × PyResult GraphState :=
  let er := s.reflection.evaluate_execution o
  let s1 := { s with reflection := er.1 }
  match er.2 with
  | .error e => (s1, [Ev.reflectionEvaluate], .error e)
  | .ok successful =>
    if successful then
      if s1.reflection.is_last_instruction then
        (s1, [Ev.reflectionEvaluate],
         .ok { gs with reflection_planning := "finish", reflection_action := "" })
      else
        let nr := s1.reflection.get_next_instruction
        let s2 := { s1 with reflection := nr.1 }
        match nr.2 with
        | .error e => (s2, [Ev.reflectionEvaluate, Ev.reflectionAdvance], .error e)
        | .ok next_instruction =>
          ({ s2 with action := s2.action.set_current_instruction next_instruction },
           [Ev.reflectionEvaluate, Ev.reflectionAdvance],
           .ok { gs with reflection_planning := "", reflection_action := "" })
    else
      let ev := s1.reflection.evaluate_error s1.screenshot s1.main_task o
      let s2 := { s1 with reflection := ev.1 }
      match ev.2 with
      | .error e => (s2, [Ev.reflectionEvaluate], .error e)
      | .ok evaluated_error =>
        if pyStartsWith evaluated_error "Minor:" then
          let cr := s2.reflection.create_new_instruction o
          ({ s2 with reflection := cr.1
                     action := s2.action.set_current_instruction cr.2 },
           [Ev.reflectionEvaluate, Ev.reflectionClassify true, Ev.reflectionCreatePatch],
           .ok { gs with reflection_action := evaluated_error, reflection_planning := "" })
        else
          (s2, [Ev.reflectionEvaluate, Ev.reflectionClassify false],
           .ok { gs with reflection_action := "", reflection_planning := evaluated_error })

/-- Run the action node after the node whose outcome is given, propagating
an exception. -/
def finishWithAction :
    BarryAgent × List Ev × PyResult GraphState → BarryAgent × List Ev × PyResult GraphState
  | (s, evs, .error e) => (s, evs, .error e)
  | (s, evs, .ok gs) =>
    let ar := actionNode s gs
    (ar.1, evs ++ ar.2.1, ar.2.2)

/-- reflection_router: a non-empty reflection_planning goes to the
planning node, everything else straight to the action node; an exception in
the reflection node propagates. -/
def routeAfterReflection (x : BarryAgent × List Ev × PyResult GraphState)
    (o : StepOracle) : BarryAgent × List Ev × PyResult GraphState :=
  match x with
  | (s1, evs, .error e) => (s1, evs, .error e)
  | (s1, evs, .ok gs1) =>
    if gs1.reflection_planning != "" then
      match finishWithAction (planningNode s1 gs1 o) with
      | (s2, evs2, r) => (s2, evs ++ evs2, r)
    else
      match finishWithAction (s1, [], .ok gs1) with
      | (s2, evs2, r) => (s2, evs ++ evs2, r)

/-- graph.invoke: start_router sends the first iteration to planning and
every later iteration to reflection; reflection_router sends a non-empty
reflection_planning to planning; planning always continues into the action
node, which ends the run. -/
def graphInvoke (s : BarryAgent) (o : StepOracle) :
    BarryAgent × List Ev × PyResult GraphState :=
  if s.first_iteration then
    finishWithAction (planningNode s s.graph_state o)
  else
    routeAfterReflection (reflectionNode s s.graph_state o) o

/-- BarryAgent._process_new_screenshot: check the observation type and the
presence of the screenshot, store it in the perception expert, call the
Omniparser backend (ConnectionError on failure), then copy the screenshot,
the SOM screenshot and the SOM description into the agent attributes. -/
def processNewScreenshot (s : BarryAgent) (o : StepOracle) : BarryAgent × PyResult Unit :=
  if s.observation_type != "screenshot" then
    (s, .error (.valueError "observation_type not supported"))
  else
    match o.obs_screenshot with
    | none => (s, .error (.valueError "screenshot was not found in the recieved observation"))
    | some scr =>
      let pe1 := s.perception.store_screenshot scr
      match o.omniparser with
      | .error e => ({ s with perception := pe1 }, .error e)
      | .ok (som, desc) =>
        let pe2 := { pe1 with som_screenshot := som, som_description := desc }
        ({ s with perception := pe2
                  screenshot := pe2.screenshot
                  SOM_screenshot := pe2.som_screenshot
                  SOM_description := pe2.som_description },
         .ok ())

/-- Body of the try block of BarryAgent.predict: process the screenshot,
on the first iteration store the task and install the initial graph state,
return the sleep step when the sleep flag is set, otherwise set the sleep
flag, invoke the graph, store the final graph state and translate the
osworld_action channel into the returned command list. -/
def predictBody (s : BarryAgent) (instruction : String) (o : StepOracle) :
    BarryAgent × List Ev × PyResult (String × List String) :=
  let pr := processNewScreenshot s o
  match pr.2 with
  | .error e => (pr.1, [Ev.perception], .error e)
  | .ok _ =>
    let s1 := pr.1
    let s2 := if s1.first_iteration then
                { s1 with main_task := instruction, graph_state := initGraphState }
              else s1
    if s2.sleep then
      ({ s2 with sleep := false }, [Ev.perception], .ok ("Task completed", ["time.sleep(1)"]))
    else
      let g := graphInvoke { s2 with sleep := true } o
      let trace := Ev.perception :: Ev.graphInvoke :: g.2.1
      match g.2.2 with
      | .error e => (g.1, trace, .error e)
      | .ok final_state =>
        let s5 := { g.1 with graph_state := final_state }
        if final_state.done && final_state.osworld_action.eqDoneStr then
          (s5, trace, .ok ("Task completed", ["DONE"]))
        else if final_state.osworld_action.truthy then
          match final_state.osworld_action.stripSplitlines with
          | .error e => (s5, trace, .error e)
          | .ok lines =>
            (s5, trace, .ok ("Next action determined", lines ++ ["time.sleep(3)"]))
        else
          (s5, trace, .ok ("FAIL: No OSWorld action generated in this cycle.", ["FAIL"]))

/-- BarryAgent.predict: increment the step counter; past the ceiling return
the budget sentinel without touching anything else; otherwise run the step
body and map any raised exception to the fixed failure pair. -/
def BarryAgent.predict (s : BarryAgent) (instruction : String) (o : StepOracle) :
    (String × List String) × BarryAgent × List Ev :=
  if s.max_trajectory_length < s.trajectory_length + 1 then
    (("Maximum trajectory length exceeded", ["FAIL"]),
     { s with trajectory_length := s.trajectory_length + 1 }, [])
  else
    match predictBody { s with trajectory_length := s.trajectory_length + 1 } instruction o with
    | (s2, evs, .ok result) => (result, s2, evs)
    | (s2, evs, .error _) =>
      (("FAIL: Exception occurred during prediction.", ["FAIL"]), s2, evs)

/-- BarryAgent.reset: set trajectory_length and call_user_count to zero and
first_iteration to True; nothing else is touched. -/
def BarryAgent.reset (s : BarryAgent) : BarryAgent :=
  { s with trajectory_length := 0, call_user_count := 0, first_iteration := true }

/-- Validity of the reflection cursor: the instruction index addresses an
element of the installed instruction list. -/
def cursorOk (r : RState) : Prop :=
  r.instruction_index < r.instruction_list.length

/-- Oracle fixture whose replies are all well formed for their call sites. -/
def goodOracle : StepOracle :=
  { obs_screenshot := some "img"
    omniparser := .ok ("som", "desc")
    evalExecResp := "RESPONSE: yes"
    evalErrorResp := "RESPONSE: Major: the wrong page is open"
    createInstructionResp := "click the icon again"
    decomposeMainResp := "RESPONSE: Open the browser"
    isDoneResp := "RESPONSE: yes"
    rethinkResp := "RESPONSE: Type the text; Save the file"
    decomposeSubtaskResp := "RESPONSE: Click the browser icon"
    processResp := "RESPONSE: pyautogui.click(1, 2);time.sleep(1)" }

/-- Oracle fixture reporting a failed execution classified Minor. -/
def minorOracle : StepOracle :=
  { goodOracle with
      evalExecResp := "RESPONSE: no"
      evalErrorResp := "RESPONSE: Minor: aim slightly more to the right" }

/-- Oracle fixture reporting a successful execution. -/
def successOracle : StepOracle :=
  { minorOracle with evalExecResp := "RESPONSE: yes" }

/-- Oracle fixture whose subtask decomposition payload contains only a
semicolon, so the parsed instruction list is empty. -/
def emptyListOracle : StepOracle :=
  { goodOracle with decomposeSubtaskResp := "RESPONSE: ;" }

/-- Oracle fixture with an unreachable Omniparser backend. -/
def failingPerceptionOracle : StepOracle :=
  { goodOracle with
      omniparser := .error (.connectionError "Error connecting to Omniparser server") }

/-- Agent fixture in the middle of an episode: the first iteration is over,
a one element instruction list is installed and its only instruction is the
current one of the action expert. -/
def midEpisodeState : BarryAgent :=
  { initBarryAgent with
      trajectory_length := 2
      first_iteration := false
      main_task := "download a photo of a dog"
      planning := { initPState with
                      main_task := "download a photo of a dog"
                      current_subtask := "open the browser"
                      chat_len := 4 }
      action := { initAState with current_instruction := "click the OK button", chat_len := 10 }
      reflection := { initRState with instruction_list := ["click the OK button"], chat_len := 1 }
      screenshot := "img", SOM_screenshot := "som", SOM_description := "desc"
      perception := { initPerceptionState with
                        screenshot := "img", som_screenshot := "som", som_description := "desc" } }

/-- Agent fixture like midEpisodeState but with a two element instruction
list, so a successful evaluation advances the cursor instead of finishing. -/
def successState : BarryAgent :=
  { midEpisodeState with
      reflection := { initRState with
                        instruction_list := ["press enter", "save the file"]
                        chat_len := 1 } }

/-- Agent states of the consecutive minor failure run: stepA after the first
minor step, stepB after the interleaved sleep step, and so on; the same
oracle answers every step. -/
def stepA : BarryAgent := (midEpisodeState.predict "download a photo of a dog" minorOracle).2.1

/-- Second state of the minor failure run (after the sleep step). -/
def stepB : BarryAgent := (stepA.predict "download a photo of a dog" minorOracle).2.1

/-- Third state of the minor failure run (after the second minor step). -/
def stepC : BarryAgent := (stepB.predict "download a photo of a dog" minorOracle).2.1

/-- Fourth state of the minor failure run (after the second sleep step). -/
def stepD : BarryAgent := (stepC.predict "download a photo of a dog" minorOracle).2.1

/-- Agent fixture carrying the traces of a finished episode, used to observe
what reset keeps. -/
def dirtyState : BarryAgent :=
  { initBarryAgent with
      trajectory_length := 7
      call_user_count := 2
      first_iteration := false
      main_task := "old task"
      sleep := true
      reflection := { chat_len := 6
                      instruction_list := ["press enter"]
                      instruction_index := 0
                      last_printed_index := 0 }
      action := { chat_len := 10, last_printed_index := 0, current_instruction := "press enter" }
      planning := { initPState with
                      chat_len := 4
                      current_subtask := "type the text"
                      main_task := "old task" } }

/-- splitOnce always returns either one piece (no marker) or exactly two
pieces. -/
theorem splitOnce_shape (s sep : String) :
    (∃ a, splitOnce s sep = [a]) ∨ ∃ a b, splitOnce s sep = [a, b] := by
  unfold splitOnce
  rcases findMarker sep.data s.data with _ | ⟨pre, post⟩
  · exact Or.inl ⟨s, rfl⟩
  · exact Or.inr ⟨⟨pre⟩, ⟨post⟩, rfl⟩

/-- C2: on the predict call whose incremented step counter exceeds the
ceiling of 25 (the 26th call after a reset), predict returns the budget
sentinel with the message Maximum trajectory length exceeded; the only
state change is the counter increment and no perception, coordinator or
graph operation runs (the event trace is empty), whatever the oracle and
the coordinator states are. -/
theorem c2_budget_exceeded (s : BarryAgent) (instruction : String) (o : StepOracle)
    (hmax : s.max_trajectory_length = 25) (hlen : s.trajectory_length = 25) :
    s.predict instruction o =
      (("Maximum trajectory length exceeded", ["FAIL"]),
       { s with trajectory_length := 26 }, []) := by
  simp only [BarryAgent.predict, hlen, hmax]
  norm_num

/-- Witness for c2_budget_exceeded at a concrete 26th call. -/
theorem c2_budget_exceeded_witness :
    ({ initBarryAgent with trajectory_length := 25 } : BarryAgent).predict "task" goodOracle =
      (("Maximum trajectory length exceeded", ["FAIL"]),
       { initBarryAgent with trajectory_length := 26 }, []) :=
  c2_budget_exceeded { initBarryAgent with trajectory_length := 25 } "task" goodOracle rfl rfl

/-- C7 (amended): reset only sets the step counter and the call_user
counter to zero and the first-iteration flag to true; the four coordinator
instances, the sleep flag, the stored graph state and the main task are all
carried over unchanged into the next episode. -/
theorem c7_reset_effect (s : BarryAgent) :
    s.reset.trajectory_length = 0 ∧
    s.reset.call_user_count = 0 ∧
    s.reset.first_iteration = true ∧
    s.reset.planning = s.planning ∧
    s.reset.action = s.action ∧
    s.reset.reflection = s.reflection ∧
    s.reset.perception = s.perception ∧
    s.reset.sleep = s.sleep ∧
    s.reset.graph_state = s.graph_state ∧
    s.reset.main_task = s.main_task :=
  ⟨rfl, rfl, rfl, rfl, rfl, rfl, rfl, rfl, rfl, rfl⟩

/-- C7 counterexample: after reset of a concrete used agent the reflection
expert is not freshly initialized; its instruction list, chat history
length, the action expert instruction, the planning subtask and the sleep
flag all survive, even though the step counter is zeroed and the
first-iteration flag is set. -/
theorem c7_reset_keeps_coordinators :
    dirtyState.reset.reflection ≠ initRState ∧
    dirtyState.reset.reflection.instruction_list = ["press enter"] ∧
    dirtyState.reset.reflection.chat_len = 6 ∧
    dirtyState.reset.action.current_instruction = "press enter" ∧
    dirtyState.reset.planning.current_subtask = "type the text" ∧
    dirtyState.reset.sleep = true ∧
    dirtyState.reset.trajectory_length = 0 ∧
    dirtyState.reset.first_iteration = true := by
  refine ⟨by decide, rfl, rfl, rfl, rfl, rfl, rfl, rfl⟩

/-- C3 counterexample: at the decision-carrying call site of the action
expert (process_instruction, which parses with _parse_subtask_response), a
response without the RESPONSE: marker is not a parse error: it is silently
defaulted to the empty command list. -/
theorem c3_action_parse_defaults_empty :
    parseSubtaskResponse "pyautogui.click(1, 2)" "RESPONSE:" = [] ∧
    (initAState.process_instruction
        { goodOracle with processResp := "pyautogui.click(1, 2)" }).2 = [] :=
  ⟨rfl, rfl⟩

/-- C3 (amended): a response without the RESPONSE: marker is a ValueError
in parse_llm_response (the parser of every planning and reflection decision
site), but the action expert parser _parse_subtask_response instead returns
the empty list without raising. -/
theorem c3_marker_protocol (t : String) (h : hasMarker t = false) :
    parse_llm_response t
      = Except.error (PyErr.valueError ("LLM response missing RESPONSE: marker: " ++ t)) ∧
    parseSubtaskResponse t "RESPONSE:" = [] := by
  rcases splitOnce_shape t "RESPONSE:" with ⟨a, ha⟩ | ⟨a, b, hab⟩
  · constructor
    · unfold parse_llm_response
      rw [ha]
    · unfold parseSubtaskResponse
      split
      · rfl
      · rw [ha]
  · exfalso
    unfold hasMarker at h
    rw [hab] at h
    simp at h

/-- Witness for c3_marker_protocol at a concrete marker-less response. -/
theorem c3_marker_protocol_witness :
    parse_llm_response "I could not decide."
      = Except.error (PyErr.valueError
          ("LLM response missing RESPONSE: marker: " ++ "I could not decide.")) ∧
    parseSubtaskResponse "I could not decide." "RESPONSE:" = [] :=
  c3_marker_protocol "I could not decide." (by decide)

/-- C1 counterexample: when the oracle payload for decompose_subtask is a
bare semicolon the parsed instruction list is empty; the graph installs it
into the reflection expert before indexing it, so after this concrete
predict call the installed list is empty while the cursor is 0, i.e. the
cursor is out of bounds from the installation on (and the call itself ends
in the generic failure pair). -/
theorem c1_empty_install_breaks_cursor :
    (initBarryAgent.predict "open a file" emptyListOracle).2.1.reflection.instruction_list
      = [] ∧
    (initBarryAgent.predict "open a file" emptyListOracle).2.1.reflection.instruction_index
      = 0 ∧
    ¬ cursorOk (initBarryAgent.predict "open a file" emptyListOracle).2.1.reflection ∧
    (initBarryAgent.predict "open a file" emptyListOracle).1
      = ("FAIL: Exception occurred during prediction.", ["FAIL"]) := by
  refine ⟨rfl, rfl, ?_, rfl⟩
  unfold cursorOk
  decide

/-- C1 (amended): provided every installed instruction list is non-empty
the reflection cursor is always a valid index: set_subtask_and_instructions
resets the cursor to 0 (valid for a non-empty list), get_next_instruction
advances it by exactly 1 and keeps it valid whenever is_last_instruction
returned false, and the evaluation operations never change the list or the
cursor.  (Without the non-emptiness provision the property fails, see the
counterexample.) -/
theorem c1_cursor_invariant :
    (∀ (r : RState) (subtask : String) (il : List String), il ≠ [] →
        cursorOk (r.set_subtask_and_instructions subtask il) ∧
        (r.set_subtask_and_instructions subtask il).instruction_index = 0) ∧
    (∀ r : RState, cursorOk r → r.is_last_instruction = false →
        r.get_next_instruction.1.instruction_index = r.instruction_index + 1 ∧
        cursorOk r.get_next_instruction.1) ∧
    (∀ (r : RState) (mt scr : String) (o : StepOracle),
        (r.evaluate_execution o).1.instruction_list = r.instruction_list ∧
        (r.evaluate_execution o).1.instruction_index = r.instruction_index ∧
        (r.evaluate_error mt scr o).1.instruction_list = r.instruction_list ∧
        (r.evaluate_error mt scr o).1.instruction_index = r.instruction_index ∧
        (r.create_new_instruction o).1.instruction_list = r.instruction_list ∧
        (r.create_new_instruction o).1.instruction_index = r.instruction_index) := by
  refine ⟨?_, ?_, ?_⟩
  · intro r subtask il hil
    exact ⟨List.length_pos.mpr hil, rfl⟩
  · intro r hok hlast
    have h1 : ((r.instruction_list.length : Int) - 1) ≠ (r.instruction_index : Int) := by
      simpa [RState.is_last_instruction] using hlast
    refine ⟨rfl, ?_⟩
    have hok' : r.instruction_index < r.instruction_list.length := hok
    show r.instruction_index + 1 < r.instruction_list.length
    omega
  · intro r mt scr o
    rcases h : r.instruction_list[r.instruction_index]? with _ | i <;>
      simp [RState.evaluate_execution, RState.evaluate_error,
            RState.create_new_instruction, h]

/-- Witness for c1_cursor_invariant at a concrete two element list. -/
theorem c1_cursor_invariant_witness :
    cursorOk (initRState.set_subtask_and_instructions "sub" ["open the menu", "click save"]) ∧
    cursorOk (initRState.set_subtask_and_instructions "sub"
        ["open the menu", "click save"]).get_next_instruction.1 := by
  have h1 := c1_cursor_invariant.1 initRState "sub" ["open the menu", "click save"]
    (by decide)
  have h2 := c1_cursor_invariant.2.1
    (initRState.set_subtask_and_instructions "sub" ["open the menu", "click save"])
    h1.1 (by decide)
  exact ⟨h1.1, h2.2⟩

/-- Lowercasing one character never yields the three character string yes,
so the comparison the source performs in is_main_task_done is always
false. -/
theorem singleton_lower_ne_yes (c : Char) :
    (pyLower (String.singleton c) == "yes") = false := by
  apply beq_eq_false_iff_ne.mpr
  intro h
  have hdata : [c.toLower] = ("yes" : String).data := congrArg String.data h
  have hlen := congrArg List.length hdata
  simp at hlen

/-- C4 (amended): the failure classification is stateless.  The result of
evaluate_error depends only on the oracle response (it equals the parsed
response for every reflection state with a valid cursor and any main task
and screenshot), and the Minor branch is taken exactly when the parsed
response starts with the literal Minor: prefix; the two-attempt tolerance
exists only as prompt text, so the code cannot force the 3rd consecutive
evaluation of the same instruction to be Major. -/
theorem c4_no_stateful_escalation (r₁ r₂ : RState) (mt₁ scr₁ mt₂ scr₂ : String)
    (o : StepOracle)
    (h₁ : r₁.instruction_index < r₁.instruction_list.length)
    (h₂ : r₂.instruction_index < r₂.instruction_list.length) :
    (r₁.evaluate_error mt₁ scr₁ o).2 = (r₂.evaluate_error mt₂ scr₂ o).2 := by
  unfold RState.evaluate_error
  rw [List.getElem?_eq_getElem h₁, List.getElem?_eq_getElem h₂]

/-- Witness for c4_no_stateful_escalation at two different concrete
reflection states. -/
theorem c4_no_stateful_escalation_witness :
    ({ initRState with instruction_list := ["click the OK button"] }.evaluate_error
        "m1" "s1" minorOracle).2
      = ({ initRState with
             instruction_list := ["open the menu", "click save"]
             instruction_index := 1
             chat_len := 9 }.evaluate_error "m2" "s2" minorOracle).2 :=
  c4_no_stateful_escalation _ _ "m1" "s1" "m2" "s2" minorOracle (by decide) (by decide)

/-- C4 counterexample: with an oracle that always reports a failed
execution and classifies it Minor, three consecutive evaluations of the
same failing instruction (the cursor stays at 0 and the installed list is
unchanged throughout) are classified Minor each time, as the event traces
of the three graph steps show; in particular the 3rd consecutive
evaluation is again Minor, not Major. -/
theorem c4_third_minor_not_escalated :
    (midEpisodeState.predict "download a photo of a dog" minorOracle).2.2
      = [Ev.perception, Ev.graphInvoke, Ev.reflectionEvaluate,
         Ev.reflectionClassify true, Ev.reflectionCreatePatch, Ev.actionCall] ∧
    (stepA.predict "download a photo of a dog" minorOracle).2.2 = [Ev.perception] ∧
    (stepB.predict "download a photo of a dog" minorOracle).2.2
      = [Ev.perception, Ev.graphInvoke, Ev.reflectionEvaluate,
         Ev.reflectionClassify true, Ev.reflectionCreatePatch, Ev.actionCall] ∧
    (stepC.predict "download a photo of a dog" minorOracle).2.2 = [Ev.perception] ∧
    (stepD.predict "download a photo of a dog" minorOracle).2.2
      = [Ev.perception, Ev.graphInvoke, Ev.reflectionEvaluate,
         Ev.reflectionClassify true, Ev.reflectionCreatePatch, Ev.actionCall] ∧
    stepD.reflection.instruction_list = ["click the OK button"] ∧
    stepD.reflection.instruction_index = 0 :=
  ⟨rfl, rfl, rfl, rfl, rfl, rfl, rfl⟩

/-- C5 (amended): whenever the reflection node classifies a failed
execution as Minor it asks create_new_instruction for one patch
instruction, installs it as the action expert current instruction, and
leaves the instruction list and the cursor untouched; the graph state
carries the diagnosis to the action feedback channel and clears the
planning channel.  No per-instruction minor-retry counter exists in the
embedded state, so none is incremented (see the counterexample). -/
theorem c5_minor_patch_effect (s : BarryAgent) (gs : GraphState) (o : StepOracle)
    (instr fr err : String)
    (hget : s.reflection.instruction_list[s.reflection.instruction_index]? = some instr)
    (hexec : parse_llm_response o.evalExecResp = Except.ok fr)
    (hno : (pyLower fr == "yes") = false)
    (herr : parse_llm_response o.evalErrorResp = Except.ok err)
    (hminor : pyStartsWith err "Minor:" = true) :
    ∃ s' evs gs',
      reflectionNode s gs o = (s', evs, Except.ok gs') ∧
      s'.action.current_instruction = o.createInstructionResp ∧
      s'.reflection.instruction_list = s.reflection.instruction_list ∧
      s'.reflection.instruction_index = s.reflection.instruction_index ∧
      s'.call_user_count = s.call_user_count ∧
      gs'.reflection_action = err ∧
      gs'.reflection_planning = "" := by
  simp only [reflectionNode, RState.evaluate_execution, RState.evaluate_error,
             RState.create_new_instruction, AState.set_current_instruction,
             hget, hexec, hno, herr, hminor]
  exact ⟨_, _, _, rfl, rfl, rfl, rfl, rfl, rfl, rfl⟩

/-- Witness for c5_minor_patch_effect at the concrete mid-episode state. -/
theorem c5_minor_patch_effect_witness :
    ∃ s' evs gs',
      reflectionNode midEpisodeState initGraphState minorOracle
        = (s', evs, Except.ok gs') ∧
      s'.action.current_instruction = minorOracle.createInstructionResp ∧
      s'.reflection.instruction_list = midEpisodeState.reflection.instruction_list ∧
      s'.reflection.instruction_index = midEpisodeState.reflection.instruction_index ∧
      s'.call_user_count = midEpisodeState.call_user_count ∧
      gs'.reflection_action = "Minor: aim slightly more to the right" ∧
      gs'.reflection_planning = "" :=
  c5_minor_patch_effect midEpisodeState initGraphState minorOracle
    "click the OK button" "no" "Minor: aim slightly more to the right"
    rfl rfl rfl rfl rfl

/-- C5 counterexample: a concrete minor-classified step increments no
per-instruction retry counter.  Every counter-valued field of the whole
agent state is unchanged by the minor step except the global step counter,
and a successful step increments that same counter identically, so it
counts predict calls, not minor retries of the current instruction; the
claimed per-instruction minor-retry counter does not exist. -/
theorem c5_no_retry_counter :
    stepA.call_user_count = midEpisodeState.call_user_count ∧
    stepA.trajectory_length = midEpisodeState.trajectory_length + 1 ∧
    stepA.reflection.instruction_index = midEpisodeState.reflection.instruction_index ∧
    stepA.reflection.last_printed_index = midEpisodeState.reflection.last_printed_index ∧
    stepA.action.last_printed_index = midEpisodeState.action.last_printed_index ∧
    stepA.planning.last_printed_index = midEpisodeState.planning.last_printed_index ∧
    (successState.predict "download a photo of a dog" successOracle).2.1.trajectory_length
      = successState.trajectory_length + 1 ∧
    (successState.predict "download a photo of a dog" successOracle).2.1.call_user_count
      = successState.call_user_count :=
  ⟨rfl, rfl, rfl, rfl, rfl, rfl, rfl, rfl⟩

/-- C6: the code of is_main_task_done can never report that the main task
is done.  It compares the lowercased first character of the parsed oracle
reply (a one character string) with the three character string yes, so
whenever it returns a Boolean at all the Boolean is false, even for the
reply RESPONSE: yes; the done flag of the step state therefore never
becomes True through the planning path and predict never returns the DONE
sentinel, contrary to the claimed round trip (and to the docstring of
is_main_task_done itself). -/
theorem c6_is_main_task_done_never_true :
    (∀ (p : PState) (o : StepOracle) (b : Bool),
        (p.is_main_task_done o).2 = Except.ok b → b = false) ∧
    ({ initPState with
         main_task := "download a photo of a dog"
         current_subtask := "open the browser" }.is_main_task_done goodOracle).2
      = Except.ok false := by
  constructor
  · intro p o b h
    rcases hp : parse_llm_response o.isDoneResp with e | txt
    · simp only [PState.is_main_task_done, hp] at h
      exact absurd h (by simp)
    · simp only [PState.is_main_task_done, hp] at h
      rcases hd : txt.data with _ | ⟨c, cs⟩
      · simp only [hd] at h
        exact absurd h (by simp)
      · simp only [hd] at h
        have hb : (pyLower (String.singleton c) == "yes") = b := by injection h
        rw [← hb]
        exact singleton_lower_ne_yes c
  · rfl

/-- Witness for c6_is_main_task_done_never_true applying the universal part
at the concrete yes reply. -/
theorem c6_is_main_task_done_never_true_witness :
    (initPState.is_main_task_done goodOracle).2 = Except.ok false ∧ false = false :=
  ⟨rfl, c6_is_main_task_done_never_true.1 initPState goodOracle false rfl⟩

/-- C8: whenever the parsed oracle reply of rethink_subtask_list splits on
semicolons into a non-empty list, the function stores the first element of
the fresh remaining-subtask list as current_subtask and returns that same
first element, for every planning state and feedback string. -/
theorem c8_rethink_returns_first (p : PState) (feedback : String) (o : StepOracle)
    (raw first : String) (rest : List String)
    (hparse : parse_llm_response o.rethinkResp = Except.ok raw)
    (hsplit : parseSemicolonList raw = first :: rest) :
    (p.rethink_subtask_list feedback o).1.current_subtask = first ∧
    (p.rethink_subtask_list feedback o).2 = Except.ok first := by
  simp [PState.rethink_subtask_list, hparse, hsplit]

/-- Witness for c8_rethink_returns_first at a concrete two element reply. -/
theorem c8_rethink_returns_first_witness :
    (initPState.rethink_subtask_list "" goodOracle).1.current_subtask = "Type the text" ∧
    (initPState.rethink_subtask_list "" goodOracle).2 = Except.ok "Type the text" :=
  c8_rethink_returns_first initPState "" goodOracle "Type the text; Save the file"
    "Type the text" ["Save the file"] rfl rfl

/-- The run of the action node after a preceding node succeeds only when the
done flag was already set in the graph state handed to it, and then the
final graph state has the done flag set and the string done on the
osworld_action channel; in every other case the four-versus-three argument
TypeError of the process_instruction call aborts the run. -/
theorem finishWithAction_ok (x : BarryAgent × List Ev × PyResult GraphState)
    (s' : BarryAgent) (evs : List Ev) (gs' : GraphState)
    (h : finishWithAction x = (s', evs, Except.ok gs')) :
    gs'.done = true ∧ gs'.osworld_action = OsAction.pystr "done" := by
  obtain ⟨sx, evsx, rx⟩ := x
  cases rx with
  | error e => simp [finishWithAction] at h
  | ok gsx =>
    by_cases hd : gsx.done
    · simp only [finishWithAction, actionNode, hd, if_true] at h
      obtain ⟨h1, h2, h3⟩ := h
      exact ⟨rfl, rfl⟩
    · simp [finishWithAction, actionNode, hd] at h

/-- Propagating finishWithAction_ok through the reflection router. -/
theorem routeAfterReflection_ok (x : BarryAgent × List Ev × PyResult GraphState)
    (o : StepOracle) (s' : BarryAgent) (evs : List Ev) (gs' : GraphState)
    (h : routeAfterReflection x o = (s', evs, Except.ok gs')) :
    gs'.done = true ∧ gs'.osworld_action = OsAction.pystr "done" := by
  obtain ⟨sx, evsx, rx⟩ := x
  cases rx with
  | error e => simp [routeAfterReflection] at h
  | ok gsx =>
    by_cases hp : gsx.reflection_planning != ""
    · simp only [routeAfterReflection, hp, if_true] at h
      rcases hfa : finishWithAction (planningNode sx gsx o) with ⟨s2, evs2, r⟩
      rw [hfa] at h
      have h3 : r = Except.ok gs' := congrArg (fun t => t.2.2) h
      rw [h3] at hfa
      exact finishWithAction_ok _ _ _ _ hfa
    · simp only [routeAfterReflection, hp, if_false] at h
      rcases hfa : finishWithAction (sx, [], Except.ok gsx) with ⟨s2, evs2, r⟩
      rw [hfa] at h
      have h3 : r = Except.ok gs' := congrArg (fun t => t.2.2) h
      rw [h3] at hfa
      exact finishWithAction_ok _ _ _ _ hfa

/-- Whenever graph.invoke returns normally the final graph state carries the
done flag and the string done: with the broken action call the only normal
exit of the state machine is the completion path. -/
theorem graphInvoke_ok (s : BarryAgent) (o : StepOracle)
    (s' : BarryAgent) (evs : List Ev) (gs' : GraphState)
    (h : graphInvoke s o = (s', evs, Except.ok gs')) :
    gs'.done = true ∧ gs'.osworld_action = OsAction.pystr "done" := by
  unfold graphInvoke at h
  by_cases hf : s.first_iteration
  · rw [if_pos hf] at h
    exact finishWithAction_ok _ _ _ _ h
  · rw [if_neg hf] at h
    exact routeAfterReflection_ok _ _ _ _ _ h

/-- Every normal return of the predict step body carries the status Task
completed: either the sleep step or the done path; command-carrying returns
are unreachable. -/
theorem predictBody_ok_msg (s : BarryAgent) (instruction : String) (o : StepOracle)
    (s' : BarryAgent) (evs : List Ev) (msg : String) (cmds : List String)
    (h : predictBody s instruction o = (s', evs, Except.ok (msg, cmds))) :
    msg = "Task completed" := by
  unfold predictBody at h
  rcases hpr : processNewScreenshot s o with ⟨s1, r⟩
  rw [hpr] at h
  cases r with
  | error e => simp at h
  | ok u =>
    simp only at h
    set s2 := if s1.first_iteration then
        { s1 with main_task := instruction, graph_state := initGraphState } else s1 with hs2
    by_cases hsl : s2.sleep
    · rw [if_pos hsl] at h
      have h3 : Except.ok ("Task completed", ["time.sleep(1)"])
          = Except.ok (msg, cmds) := congrArg (fun t => t.2.2) h
      have h4 : (("Task completed", ["time.sleep(1)"]) : String × List String)
          = (msg, cmds) := by injection h3
      exact (congrArg Prod.fst h4).symm
    · rw [if_neg hsl] at h
      rcases hg : graphInvoke { s2 with sleep := true } o with ⟨s4, evs4, rg⟩
      rw [hg] at h
      cases rg with
      | error e => simp at h
      | ok final_state =>
        obtain ⟨hdone, hos⟩ := graphInvoke_ok _ _ _ _ _ hg
        dsimp only at h
        rw [hdone, hos] at h
        simp only [OsAction.eqDoneStr, Bool.true_and] at h
        rw [if_pos (by decide)] at h
        have h3 : Except.ok ("Task completed", ["DONE"])
            = Except.ok (msg, cmds) := congrArg (fun t => t.2.2) h
        have h4 : (("Task completed", ["DONE"]) : String × List String)
            = (msg, cmds) := by injection h3
        exact (congrArg Prod.fst h4).symm

/-- No predict call ever returns the status Next action determined: the
status is the budget sentinel, a failure pair, or Task completed. -/
theorem predict_never_next_action (s : BarryAgent) (instruction : String)
    (o : StepOracle) :
    ((s.predict instruction o).1.1 == "Next action determined") = false := by
  unfold BarryAgent.predict
  by_cases hb : s.max_trajectory_length < s.trajectory_length + 1
  · rw [if_pos hb]
    rfl
  · rw [if_neg hb]
    rcases hbr : predictBody { s with trajectory_length := s.trajectory_length + 1 }
        instruction o with ⟨s', evs, r⟩
    cases r with
    | error e => rfl
    | ok result =>
      obtain ⟨msg, cmds⟩ := result
      have hmsg := predictBody_ok_msg _ _ _ _ _ _ _ hbr
      dsimp only
      rw [hmsg]
      rfl

/-- C9: the claimed alternation (a real pyautogui command list on one call,
then a pure sleep step) cannot occur, because no predict call ever returns
a real command list: the first call of a fresh episode with fully
well-formed oracle replies runs the graph into the action call and ends in
the catch-all failure pair (the source hands process_instruction four
positional arguments against a three parameter signature), the following
call is the sleep step with Task completed and the single command
time.sleep(1) but still runs the perception expert first, and universally
the status Next action determined is unreachable. -/
theorem c9_no_real_command_list :
    (initBarryAgent.predict "open a file in the editor" goodOracle).1
      = ("FAIL: Exception occurred during prediction.", ["FAIL"]) ∧
    Ev.actionCall ∈ (initBarryAgent.predict "open a file in the editor" goodOracle).2.2 ∧
    ((initBarryAgent.predict "open a file in the editor" goodOracle).2.1.predict
        "open a file in the editor" goodOracle).1
      = ("Task completed", ["time.sleep(1)"]) ∧
    ((initBarryAgent.predict "open a file in the editor" goodOracle).2.1.predict
        "open a file in the editor" goodOracle).2.2 = [Ev.perception] ∧
    (∀ (s : BarryAgent) (instruction : String) (o : StepOracle),
        ((s.predict instruction o).1.1 == "Next action determined") = false) :=
  ⟨rfl, by decide, rfl, rfl, predict_never_next_action⟩

/-- C10: once the budget check passes, any exception raised inside the step
body (perception backend failure, a missing RESPONSE: marker, an index
error on an empty list, or the broken action expert call) is caught, and
predict returns the fixed pair FAIL: Exception occurred during prediction.
with the sentinel list, keeping the state mutations made before the
exception. -/
theorem c10_exceptions_caught (s : BarryAgent) (instruction : String) (o : StepOracle)
    (s' : BarryAgent) (evs : List Ev) (e : PyErr)
    (hbudget : s.trajectory_length + 1 ≤ s.max_trajectory_length)
    (hbody : predictBody { s with trajectory_length := s.trajectory_length + 1 }
        instruction o = (s', evs, Except.error e)) :
    s.predict instruction o
      = (("FAIL: Exception occurred during prediction.", ["FAIL"]), s', evs) := by
  unfold BarryAgent.predict
  rw [if_neg (by omega), hbody]

/-- Witness for c10_exceptions_caught at a concrete perception backend
failure. -/
theorem c10_exceptions_caught_witness :
    initBarryAgent.predict "task" failingPerceptionOracle
      = (("FAIL: Exception occurred during prediction.", ["FAIL"]),
         { initBarryAgent with
             trajectory_length := 1
             perception := { initPerceptionState with screenshot := "img" } },
         [Ev.perception]) :=
  c10_exceptions_caught initBarryAgent "task" failingPerceptionOracle
    { initBarryAgent with
        trajectory_length := 1
        perception := { initPerceptionState with screenshot := "img" } }
    [Ev.perception] (PyErr.connectionError "Error connecting to Omniparser server")
    (by decide) rfl
